import Mathlib

/-!
Verification of the RFC 2818 hostname-matching core of `lib/x509/rfc2818_hostname.c`
and the cipher wrappers of `lib/gnutls_cipher_int.c`.

C strings (NUL-terminated, NUL-free per the spec) are embedded as `List Char`.
The external extraction collaborators (`gnutls_x509_extract_certificate_subject_alt_name`,
`gnutls_x509_certificate_get_subject_alt_name`, the DN accessors) are not part of the
two source files; following the spec's data model, a certificate identity is embedded
as the sequence of per-index accessor outcomes each of them reports.
-/

namespace Gnutls

/-- C function `strchr(hostname, c)` as used here: the suffix of the string
starting at the first occurrence of `c`, or `none` when `c` does not occur
(C returns NULL). -/
def strchr : List Char → Char → Option (List Char)
  | [], _ => none
  | a :: rest, c => if a = c then some (a :: rest) else strchr rest c

/-- The literal value of `GNUTLS_SAN_DNSNAME`.
Modelled from the spec: the enumerator is declared in a header outside the two
source files; it is the (positive) tag the extraction collaborator reports for
an entry of DNS-name type, distinct from every negative error result. -/
def GNUTLS_SAN_DNSNAME : Int := 1

/-- Function `hostname_compare` from `rfc2818_hostname.c` lines 108-140:
compare a candidate certificate name against a hostname, honouring a leading
wildcard label of the form `*.`. -/
def hostname_compare (certname hostname : List Char) : Bool :=
  if certname.length == 0 || hostname.length == 0 then
    false
  else if decide (certname.length > 2) && (certname.take 2 == ['*', '.']) then
    -- a wildcard certificate: cmpstr1 = certname + 1
    match strchr hostname '.' with
    | none => false        -- the hostname we're connecting to is only a local part
    | some cmpstr2 => certname.drop 1 == cmpstr2
  else
    certname == hostname

/-- One per-index outcome of the SAN extraction collaborator: the `int` it
returns and the contents it leaves in the caller's name buffer. -/
abbrev SanResult := Int × List Char

/-- Result of the SAN scanning loop: an entry matched (carrying the final
`found_dnsname` flag), or the loop stopped on a negative extraction result
(carrying `found_dnsname`). -/
inductive SanScan
  | matched (found : Bool)
  | exhausted (found : Bool)
deriving DecidableEq, Repr

/-- The `for (i = 0; !(ret < 0); i++)` traversal of
`gnutls_x509_check_certificates_hostname` (lines 69-84): walk the per-index
outcomes, stop at the first negative result, set `found_dnsname` on each
`GNUTLS_SAN_DNSNAME` outcome and return success as soon as `hostname_compare`
accepts one.  The second component counts the extraction calls made (the list
models the outcomes of the in-range indices; one further call past the end
reports the negative end-of-list result, as does an explicit negative
element). -/
def sanLoop (hostname : List Char) (found : Bool) : List SanResult → SanScan × Nat
  | [] => (SanScan.exhausted found, 1)
  | (ret, dnsname) :: rest =>
    if ret < 0 then
      (SanScan.exhausted found, 1)
    else if ret == GNUTLS_SAN_DNSNAME then
      if hostname_compare dnsname hostname then
        (SanScan.matched true, 1)
      else
        let r := sanLoop hostname true rest
        (r.1, r.2 + 1)
    else
      let r := sanLoop hostname found rest
      (r.1, r.2 + 1)

/-- Identity accessor outcomes backing `gnutls_x509_check_certificates_hostname`.
Modelled from the spec: the parsing collaborator (absent from the source files)
reports, per index, the result of
`gnutls_x509_extract_certificate_subject_alt_name`, and once the result of
`gnutls_x509_extract_certificate_dn` together with the `common_name` field it
fills in. -/
structure EncodedCert where
  sanResults : List SanResult
  dnRet : Int
  common_name : List Char
deriving DecidableEq, Repr

/-- Identity accessor outcomes backing `gnutls_x509_certificate_check_hostname`.
Modelled from the spec: the handle-based collaborator reports, per index, the
result of `gnutls_x509_certificate_get_subject_alt_name`, and once the result
of `gnutls_x509_certificate_get_dn_by_oid` together with the buffer contents. -/
structure CertHandle where
  sanResults : List SanResult
  dnByOidRet : Int
  commonName : List Char
deriving DecidableEq, Repr

/-- Function `gnutls_x509_check_certificates_hostname` (lines 44-103): scan
the SAN outcomes; on a match return 1; otherwise, only when no DNS-type entry
was found, fall back to the common name, returning 0 when DN retrieval fails. -/
def gnutls_x509_check_certificates_hostname (cert : EncodedCert) (hostname : List Char) : Int :=
  match (sanLoop hostname false cert.sanResults).1 with
  | SanScan.matched _ => 1
  | SanScan.exhausted found_dnsname =>
    if found_dnsname then 0
    else if cert.dnRet ≠ 0 then 0
    else if hostname_compare cert.common_name hostname then 1
    else 0

/-- The traversal of `gnutls_x509_certificate_check_hostname` (lines 178-192),
transcribed separately from `sanLoop` because the two C loops are distinct
code driving distinct accessors. -/
def sanLoopHandle (hostname : List Char) (found : Bool) : List SanResult → SanScan × Nat
  | [] => (SanScan.exhausted found, 1)
  | (ret, dnsname) :: rest =>
    if ret < 0 then
      (SanScan.exhausted found, 1)
    else if ret == GNUTLS_SAN_DNSNAME then
      if hostname_compare dnsname hostname then
        (SanScan.matched true, 1)
      else
        let r := sanLoopHandle hostname true rest
        (r.1, r.2 + 1)
    else
      let r := sanLoopHandle hostname found rest
      (r.1, r.2 + 1)

/-- Function `gnutls_x509_certificate_check_hostname` (lines 154-213). -/
def gnutls_x509_certificate_check_hostname (cert : CertHandle) (hostname : List Char) : Int :=
  match (sanLoopHandle hostname false cert.sanResults).1 with
  | SanScan.matched _ => 1
  | SanScan.exhausted found_dnsname =>
    if found_dnsname then 0
    else if cert.dnByOidRet ≠ 0 then 0
    else if hostname_compare cert.commonName hostname then 1
    else 0

/-- The reference definition of WildcardCompare, written from the spec's words
(section 4.1): false when either string is empty; for a `*.`-prefixed
certificate name of length > 2, true iff the hostname contains a dot and the
certificate name minus its leading `*` equals the hostname's suffix from its
first dot inclusive; otherwise plain byte-for-byte equality. -/
def wildcardCompareSpec (certname hostname : List Char) : Bool :=
  if certname.isEmpty || hostname.isEmpty then
    false
  else if decide (certname.length > 2) && certname.take 2 == ['*', '.'] then
    decide ('.' ∈ hostname) &&
      (certname.drop 1 == hostname.dropWhile (fun c => !(c == '.')))
  else
    certname == hostname

/-- The behaviour of the external cipher object held by a live handle (the
gcry calls are outside the source files): the status it returns and the
buffer contents it leaves behind. -/
structure ExtCipher where
  enc : List Nat → Int × List Nat
  dec : List Nat → Int × List Nat

/-- Type `GNUTLS_CIPHER_HANDLE`: either the sentinel `GNUTLS_CIPHER_FAILED`
or a live external cipher object. -/
inductive CipherHandle
  | GNUTLS_CIPHER_FAILED
  | valid (c : ExtCipher)

/-- The value of `GNUTLS_E_UNKNOWN_ERROR`.
Modelled from the spec: the constant is declared in `gnutls_errors.h`, outside
the source files; all that matters is that it is a nonzero error code. -/
def GNUTLS_E_UNKNOWN_ERROR : Int := -16

/-- Function `gnutls_cipher_encrypt` from `gnutls_cipher_int.c` lines 88-100
(gcrypt branch): a failed handle is left untouched and reported as success; a
live handle forwards to the external cipher and maps its failure to
`GNUTLS_E_UNKNOWN_ERROR`.  Returns the status and the buffer after the call. -/
def gnutls_cipher_encrypt (handle : CipherHandle) (text : List Nat) : Int × List Nat :=
  match handle with
  | CipherHandle.GNUTLS_CIPHER_FAILED => (0, text)
  | CipherHandle.valid c =>
    let r := c.enc text
    if r.1 ≠ 0 then (GNUTLS_E_UNKNOWN_ERROR, r.2) else (0, r.2)

/-- Function `gnutls_cipher_decrypt` from `gnutls_cipher_int.c` lines 102-114
(gcrypt branch). -/
def gnutls_cipher_decrypt (handle : CipherHandle) (ciphertext : List Nat) : Int × List Nat :=
  match handle with
  | CipherHandle.GNUTLS_CIPHER_FAILED => (0, ciphertext)
  | CipherHandle.valid c =>
    let r := c.dec ciphertext
    if r.1 ≠ 0 then (GNUTLS_E_UNKNOWN_ERROR, r.2) else (0, r.2)

lemma length_beq_zero_eq_isEmpty (l : List Char) : (l.length == 0) = l.isEmpty := by
  cases l <;> rfl

lemma strchr_eq_none (c : Char) : ∀ l : List Char, c ∉ l → strchr l c = none := by
  intro l
  induction l with
  | nil => intro _; rfl
  | cons a rest ih =>
    intro h
    rw [List.mem_cons, not_or] at h
    rw [strchr, if_neg (fun hac => h.1 hac.symm), ih h.2]

lemma strchr_eq_some (c : Char) : ∀ l : List Char, c ∈ l →
    strchr l c = some (l.dropWhile (fun a => !(a == c))) := by
  intro l
  induction l with
  | nil => intro h; cases h
  | cons a rest ih =>
    intro h
    by_cases hac : a = c
    · subst hac
      rw [strchr, if_pos rfl, List.dropWhile]
      simp
    · have hcr : c ∈ rest := by
        rcases List.mem_cons.mp h with h1 | h2
        · exact absurd h1.symm hac
        · exact h2
      have hbe : (a == c) = false := beq_eq_false_iff_ne.mpr hac
      rw [strchr, if_neg hac, ih hcr, List.dropWhile]
      simp [hbe]

lemma sanLoop_skip_entry (host : List Char) (t : Int) (nm : List Char)
    (h0 : 0 ≤ t) (h1 : t ≠ GNUTLS_SAN_DNSNAME) :
    ∀ (pre : List SanResult) (rest : List SanResult) (found : Bool),
      (sanLoop host found (pre ++ (t, nm) :: rest)).1 = (sanLoop host found (pre ++ rest)).1 := by
  intro pre
  induction pre with
  | nil =>
    intro rest found
    have hneg : ¬ t < 0 := not_lt.mpr h0
    have hbe : (t == GNUTLS_SAN_DNSNAME) = false := beq_eq_false_iff_ne.mpr h1
    simp [sanLoop, hneg, hbe]
  | cons e pre ih =>
    intro rest found
    obtain ⟨ret, name⟩ := e
    by_cases hneg : ret < 0
    · simp [sanLoop, hneg]
    · by_cases hdns : (ret == GNUTLS_SAN_DNSNAME) = true
      · by_cases hcmp : hostname_compare name host = true
        · simp [sanLoop, hneg, hdns, hcmp]
        · simp only [Bool.not_eq_true] at hcmp
          simp [sanLoop, hneg, hdns, hcmp, ih]
      · simp only [Bool.not_eq_true] at hdns
        simp [sanLoop, hneg, hdns, ih]

lemma sanLoop_first_match (host nm : List Char) (hmatch : hostname_compare nm host = true) :
    ∀ (pre : List SanResult),
      (∀ e ∈ pre, 0 ≤ e.1 ∧ (e.1 = GNUTLS_SAN_DNSNAME → hostname_compare e.2 host = false)) →
      ∀ (rest : List SanResult) (found : Bool),
        (sanLoop host found (pre ++ (GNUTLS_SAN_DNSNAME, nm) :: rest)).1 = SanScan.matched true := by
  intro pre
  induction pre with
  | nil =>
    intro _ rest found
    simp [sanLoop, hmatch, GNUTLS_SAN_DNSNAME]
  | cons e pre ih =>
    intro hpre rest found
    obtain ⟨ret, name⟩ := e
    obtain ⟨hr0, hrcmp⟩ := hpre (ret, name) (List.mem_cons_self _ _)
    have hpre2 : ∀ e ∈ pre, 0 ≤ e.1 ∧ (e.1 = GNUTLS_SAN_DNSNAME → hostname_compare e.2 host = false) :=
      fun e he => hpre e (List.mem_cons_of_mem _ he)
    have hneg : ¬ ret < 0 := not_lt.mpr hr0
    by_cases hdns : (ret == GNUTLS_SAN_DNSNAME) = true
    · have hcmp : hostname_compare name host = false := hrcmp (beq_iff_eq.mp hdns)
      simp [sanLoop, hneg, hdns, hcmp, ih hpre2]
    · simp only [Bool.not_eq_true] at hdns
      simp [sanLoop, hneg, hdns, ih hpre2]

lemma sanLoopHandle_eq_sanLoop (host : List Char) :
    ∀ (l : List SanResult) (found : Bool), sanLoopHandle host found l = sanLoop host found l := by
  intro l
  induction l with
  | nil => intro found; rfl
  | cons e rest ih =>
    intro found
    obtain ⟨ret, name⟩ := e
    simp [sanLoop, sanLoopHandle, ih]

lemma sanLoop_calls_le (host : List Char) :
    ∀ (l : List SanResult) (found : Bool),
      (sanLoop host found l).2 ≤ l.findIdx (fun e => decide (e.1 < 0)) + 1 := by
  intro l
  induction l with
  | nil => intro found; simp [sanLoop]
  | cons e rest ih =>
    intro found
    obtain ⟨ret, name⟩ := e
    rw [List.findIdx_cons]
    by_cases hneg : ret < 0
    · simp [sanLoop, hneg]
    · by_cases hdns : (ret == GNUTLS_SAN_DNSNAME) = true
      · by_cases hcmp : hostname_compare name host = true
        · simp [sanLoop, hneg, hdns, hcmp]
        · simp only [Bool.not_eq_true] at hcmp
          simp [sanLoop, hneg, hdns, hcmp]
          have := ih true
          omega
      · simp only [Bool.not_eq_true] at hdns
        simp [sanLoop, hneg, hdns]
        have := ih found
        omega

/-- Claim C3: `hostname_compare` agrees with the reference definition of
WildcardCompare written from the spec's words, on all inputs. -/
theorem hostname_compare_eq_spec (certname hostname : List Char) :
    hostname_compare certname hostname = wildcardCompareSpec certname hostname := by
  unfold hostname_compare wildcardCompareSpec
  rw [length_beq_zero_eq_isEmpty, length_beq_zero_eq_isEmpty]
  by_cases h0 : (certname.isEmpty || hostname.isEmpty) = true
  · rw [if_pos h0, if_pos h0]
  · rw [if_neg h0, if_neg h0]
    by_cases hw : (decide (certname.length > 2) && certname.take 2 == ['*', '.']) = true
    · rw [if_pos hw, if_pos hw]
      by_cases hdot : '.' ∈ hostname
      · rw [strchr_eq_some ('.') hostname hdot]
        simp [hdot]
      · rw [strchr_eq_none ('.') hostname hdot]
        simp [hdot]
    · rw [if_neg hw, if_neg hw]

/-- Claim C7: for every non-empty string `h`, `hostname_compare h h` is true,
including when `h` itself begins with the wildcard form. -/
theorem wildcard_compare_refl (h : List Char) (hne : h ≠ []) : hostname_compare h h = true := by
  match h with
  | [] => exact absurd rfl hne
  | [a] =>
    unfold hostname_compare
    simp
  | a :: b :: t =>
    by_cases hw : (decide ((a :: b :: t).length > 2) && ((a :: b :: t).take 2 == ['*', '.'])) = true
    · have hw2 := hw
      rw [Bool.and_eq_true] at hw2
      obtain ⟨hlen, htake⟩ := hw2
      have hab : [a, b] = ['*', '.'] := by
        have := beq_iff_eq.mp htake
        simpa using this
      obtain ⟨ha, hb⟩ : a = '*' ∧ b = '.' := by
        injection hab with h1 h2
        injection h2 with h2 _
        exact ⟨h1, h2⟩
      subst ha; subst hb
      unfold hostname_compare
      rw [if_neg (by simp), if_pos hw]
      have hs : strchr ('*' :: '.' :: t) '.' = some ('.' :: t) := by
        rw [strchr, if_neg (by decide), strchr, if_pos rfl]
      rw [hs]
      simp
    · unfold hostname_compare
      rw [if_neg (by simp), if_neg hw]
      simp

/-- Witness for C7: reflexivity evaluated at a concrete wildcard name. -/
theorem wildcard_compare_refl_witness :
    hostname_compare ("*.example.com".toList) ("*.example.com".toList) = true :=
  wildcard_compare_refl ("*.example.com".toList) (by decide)

/-- Claim C1 counterexample: a per-entry decode problem reported as a negative
extraction result does not get skipped — it terminates the traversal, so the
matching DNS-type entry right after it never influences the verdict (verdict 0,
where skip-and-continue semantics, as with the bad entry absent, yield 1). -/
theorem c1_decode_error_aborts_counterexample :
    gnutls_x509_check_certificates_hostname
        ⟨[(-3, []), (GNUTLS_SAN_DNSNAME, "www.example.com".toList)], 1, []⟩
        ("www.example.com".toList) = 0 ∧
    gnutls_x509_check_certificates_hostname
        ⟨[(GNUTLS_SAN_DNSNAME, "www.example.com".toList)], 1, []⟩
        ("www.example.com".toList) = 1 := by
  constructor <;> rfl

/-- Claim C1 (amended): an entry whose extraction result is nonnegative and not
of DNS-name type is skipped — the traversal continues, foundDnsName is not set,
and the verdict of either entry point is as if the entry were absent; a
negative per-entry result, however, ends the traversal like end-of-list. -/
theorem c1_skip_non_dns_entries (host nm cn : List Char) (t d : Int)
    (pre rest : List SanResult) (h0 : 0 ≤ t) (h1 : t ≠ GNUTLS_SAN_DNSNAME) :
    (sanLoop host false (pre ++ (t, nm) :: rest)).1 = (sanLoop host false (pre ++ rest)).1 ∧
    gnutls_x509_check_certificates_hostname ⟨pre ++ (t, nm) :: rest, d, cn⟩ host
      = gnutls_x509_check_certificates_hostname ⟨pre ++ rest, d, cn⟩ host ∧
    gnutls_x509_certificate_check_hostname ⟨pre ++ (t, nm) :: rest, d, cn⟩ host
      = gnutls_x509_certificate_check_hostname ⟨pre ++ rest, d, cn⟩ host := by
  have hskip := sanLoop_skip_entry host t nm h0 h1 pre rest false
  refine ⟨hskip, ?_, ?_⟩
  · unfold gnutls_x509_check_certificates_hostname
    rw [hskip]
  · unfold gnutls_x509_certificate_check_hostname
    rw [sanLoopHandle_eq_sanLoop, sanLoopHandle_eq_sanLoop, hskip]

/-- Witness for C1 (amended): an rfc822Name entry (type 2) at index 0 is
skipped and a matching DNS entry after it still yields verdict 1. -/
theorem c1_skip_non_dns_entries_witness :
    gnutls_x509_check_certificates_hostname
        ⟨[(2, "a".toList), (GNUTLS_SAN_DNSNAME, "www.x.y".toList)], 1, []⟩ ("www.x.y".toList)
      = gnutls_x509_check_certificates_hostname
        ⟨[(GNUTLS_SAN_DNSNAME, "www.x.y".toList)], 1, []⟩ ("www.x.y".toList) ∧
    gnutls_x509_check_certificates_hostname
        ⟨[(GNUTLS_SAN_DNSNAME, "www.x.y".toList)], 1, []⟩ ("www.x.y".toList) = 1 :=
  ⟨(c1_skip_non_dns_entries ("www.x.y".toList) ("a".toList) [] 2 1
      [] [(GNUTLS_SAN_DNSNAME, "www.x.y".toList)] (by decide) (by decide)).2.1,
   by rfl⟩

/-- Claim C2: if the traversal ends having seen a DNS-type entry and none
matched, the verdict is 0 whatever the common name and DN result are (the CN
is never consulted); the CN comparison decides the verdict exactly when the
traversal saw zero DNS-type entries. -/
theorem c2_san_presence_disables_cn_fallback (host : List Char) (san : List SanResult)
    (d : Int) (cn : List Char) :
    ((sanLoop host false san).1 = SanScan.exhausted true →
      gnutls_x509_check_certificates_hostname ⟨san, d, cn⟩ host = 0) ∧
    ((sanLoop host false san).1 = SanScan.exhausted false →
      gnutls_x509_check_certificates_hostname ⟨san, d, cn⟩ host =
        (if d ≠ 0 then 0 else if hostname_compare cn host then 1 else 0)) := by
  constructor <;> intro hscan <;> unfold gnutls_x509_check_certificates_hostname <;>
    rw [hscan] <;> simp

/-- Witness for C2: a non-matching DNS entry forces verdict 0 even though the
common name matches; with only a non-DNS entry the matching common name gives 1. -/
theorem c2_san_presence_disables_cn_fallback_witness :
    gnutls_x509_check_certificates_hostname
        ⟨[(GNUTLS_SAN_DNSNAME, "a".toList)], 0, "b".toList⟩ ("b".toList) = 0 ∧
    gnutls_x509_check_certificates_hostname
        ⟨[(2, "a".toList)], 0, "b".toList⟩ ("b".toList) = 1 :=
  ⟨(c2_san_presence_disables_cn_fallback ("b".toList) [(GNUTLS_SAN_DNSNAME, "a".toList)]
      0 ("b".toList)).1 (by decide),
   by rw [(c2_san_presence_disables_cn_fallback ("b".toList) [(2, "a".toList)]
      0 ("b".toList)).2 (by decide)]; rfl⟩

/-- Claim C4: as soon as the traversal reaches a DNS-type entry accepted by
hostname_compare, the scan reports a match with foundDnsName set and the
verdict is 1, for every continuation of the SAN list and every DN outcome
(later entries are not examined and the CN is not consulted). -/
theorem c4_first_match_wins (host nm cn : List Char) (d : Int)
    (pre rest : List SanResult)
    (hpre : ∀ e ∈ pre, 0 ≤ e.1 ∧ (e.1 = GNUTLS_SAN_DNSNAME → hostname_compare e.2 host = false))
    (hmatch : hostname_compare nm host = true) :
    (sanLoop host false (pre ++ (GNUTLS_SAN_DNSNAME, nm) :: rest)).1 = SanScan.matched true ∧
    gnutls_x509_check_certificates_hostname
      ⟨pre ++ (GNUTLS_SAN_DNSNAME, nm) :: rest, d, cn⟩ host = 1 := by
  have hm := sanLoop_first_match host nm hmatch pre hpre rest false
  refine ⟨hm, ?_⟩
  unfold gnutls_x509_check_certificates_hostname
  rw [hm]

/-- Witness for C4: with a skipped rfc822Name entry before it, the matching
DNS entry returns 1 despite a failing DN accessor and a later entry. -/
theorem c4_first_match_wins_witness :
    gnutls_x509_check_certificates_hostname
      ⟨[(2, "e".toList), (GNUTLS_SAN_DNSNAME, "www.example.com".toList), (-3, [])], 1, []⟩
      ("www.example.com".toList) = 1 :=
  (c4_first_match_wins ("www.example.com".toList) ("www.example.com".toList) [] 1
    [(2, "e".toList)] [(-3, [])] (by decide) (by decide)).2

/-- Claim C5: the verdict is always the plain boolean 0 or 1 — no failure is
propagated as an error code — and when no DNS-type entry was seen and DN
retrieval fails (nonzero result) the verdict is 0. -/
theorem c5_fail_closed (host : List Char) (cert : EncodedCert) :
    (gnutls_x509_check_certificates_hostname cert host = 0 ∨
      gnutls_x509_check_certificates_hostname cert host = 1) ∧
    ((sanLoop host false cert.sanResults).1 = SanScan.exhausted false → cert.dnRet ≠ 0 →
      gnutls_x509_check_certificates_hostname cert host = 0) := by
  constructor
  · unfold gnutls_x509_check_certificates_hostname
    rcases (sanLoop host false cert.sanResults).1 with f | f
    · right; rfl
    · by_cases hf : f
      · subst hf; left; rfl
      · simp only [Bool.not_eq_true] at hf
        subst hf
        by_cases hd : cert.dnRet ≠ 0
        · simp [hd]
        · by_cases hc : hostname_compare cert.common_name host = true
          · simp [hd, hc]
          · simp only [Bool.not_eq_true] at hc
            simp [hd, hc]
  · intro hscan hd
    unfold gnutls_x509_check_certificates_hostname
    rw [hscan]
    simp [hd]

/-- Witness for C5: an empty SAN sequence with a failing DN accessor yields 0. -/
theorem c5_fail_closed_witness :
    gnutls_x509_check_certificates_hostname ⟨[], 1, []⟩ ("a".toList) = 0 :=
  (c5_fail_closed ("a".toList) ⟨[], 1, []⟩).2 (by rfl) (by decide)

/-- Claim C6: when the two accessor collaborators report the same per-index
SAN outcomes, the same DN result and the same common name, the encoded-bytes
entry point and the handle entry point return the same verdict for every
hostname. -/
theorem c6_entry_points_agree (host : List Char) (e : EncodedCert) (c : CertHandle)
    (hsan : e.sanResults = c.sanResults) (hdn : e.dnRet = c.dnByOidRet)
    (hcn : e.common_name = c.commonName) :
    gnutls_x509_check_certificates_hostname e host
      = gnutls_x509_certificate_check_hostname c host := by
  unfold gnutls_x509_check_certificates_hostname gnutls_x509_certificate_check_hostname
  rw [sanLoopHandle_eq_sanLoop, ← hsan, ← hdn, ← hcn]

/-- Witness for C6 at a concrete identity with one DNS entry and a CN. -/
theorem c6_entry_points_agree_witness :
    gnutls_x509_check_certificates_hostname
        ⟨[(GNUTLS_SAN_DNSNAME, "a.b".toList)], 0, "c.d".toList⟩ ("c.d".toList)
      = gnutls_x509_certificate_check_hostname
        ⟨[(GNUTLS_SAN_DNSNAME, "a.b".toList)], 0, "c.d".toList⟩ ("c.d".toList) :=
  c6_entry_points_agree ("c.d".toList)
    ⟨[(GNUTLS_SAN_DNSNAME, "a.b".toList)], 0, "c.d".toList⟩
    ⟨[(GNUTLS_SAN_DNSNAME, "a.b".toList)], 0, "c.d".toList⟩ rfl rfl rfl

/-- Claim C8: the traversal of either entry point makes at most one extraction
call more than the index of the first negative extraction result (the position
of the first in-range negative outcome, or the end of the modelled sequence,
where the collaborator reports end-of-list); in particular it terminates. -/
theorem c8_san_calls_bounded (host : List Char) (e : EncodedCert) (c : CertHandle) :
    (sanLoop host false e.sanResults).2 ≤
      e.sanResults.findIdx (fun r => decide (r.1 < 0)) + 1 ∧
    (sanLoopHandle host false c.sanResults).2 ≤
      c.sanResults.findIdx (fun r => decide (r.1 < 0)) + 1 := by
  refine ⟨sanLoop_calls_le host e.sanResults false, ?_⟩
  rw [sanLoopHandle_eq_sanLoop]
  exact sanLoop_calls_le host c.sanResults false

/-- Claim C9: the verdict is a deterministic function of the accessor outcome
sequence, the DN outcome, the common name and the hostname — identical inputs
give identical verdicts, with no other state involved. -/
theorem c9_deterministic (e1 e2 : EncodedCert) (h1 h2 : List Char)
    (hsan : e1.sanResults = e2.sanResults) (hdn : e1.dnRet = e2.dnRet)
    (hcn : e1.common_name = e2.common_name) (hh : h1 = h2) :
    gnutls_x509_check_certificates_hostname e1 h1
      = gnutls_x509_check_certificates_hostname e2 h2 := by
  obtain ⟨s1, d1, c1⟩ := e1
  obtain ⟨s2, d2, c2⟩ := e2
  simp only at hsan hdn hcn
  rw [hsan, hdn, hcn, hh]

/-- Witness for C9 at a concrete repeated input. -/
theorem c9_deterministic_witness :
    gnutls_x509_check_certificates_hostname
        ⟨[(GNUTLS_SAN_DNSNAME, "a.b".toList)], 0, []⟩ ("a.b".toList)
      = gnutls_x509_check_certificates_hostname
        ⟨[(GNUTLS_SAN_DNSNAME, "a.b".toList)], 0, []⟩ ("a.b".toList) :=
  c9_deterministic ⟨[(GNUTLS_SAN_DNSNAME, "a.b".toList)], 0, []⟩
    ⟨[(GNUTLS_SAN_DNSNAME, "a.b".toList)], 0, []⟩ ("a.b".toList) ("a.b".toList) rfl rfl rfl rfl

/-- Claim C10: with the failed cipher handle, both wrappers report success
(status 0) and leave the buffer untouched. -/
theorem c10_failed_handle_reports_success (text : List Nat) :
    gnutls_cipher_encrypt CipherHandle.GNUTLS_CIPHER_FAILED text = (0, text) ∧
    gnutls_cipher_decrypt CipherHandle.GNUTLS_CIPHER_FAILED text = (0, text) :=
  ⟨rfl, rfl⟩

end Gnutls
